import Mathlib

/-!
Verification of the seeded-entropy shim for Falcon-512
(`randombytes_kmac.c` and `falcon_shim.c`).

The C code keeps a thread-local function pointer `tls_fill`; `randombytes`
serves entropy requests from it (zero-filling the buffer when the pointer is
null), `tt_set_randombytes` stores a new pointer, and the three
`tt_falcon512_*` shims install the caller's pointer before delegating to the
opaque PQClean routines.

Embedding choices:
* A byte buffer is a `List Nat`.
* A fill callback (`void (*)(uint8_t*, size_t)`) may be stateful in C (it can
  close over a DRBG); we model it as a pure function of the history of request
  lengths made so far in this context together with the current request
  length, returning the bytes it writes into the buffer.
* Per-context state (`RngState`) is the thread-local pointer (`tls_fill`,
  an `Option`, `none` being the null pointer) plus the request history.
* The opaque PQClean routines are external code consumed as a black box; we
  quantify over them as entropy programs (`EntropyProg`): a free-monad-style
  tree that either returns a result or requests `n` random bytes from
  `randombytes` and continues on the bytes received.
-/

/-- A fill callback: given the history of request lengths served so far in
this execution context and the current requested length, the bytes it writes
into the buffer. -/
def FillFn : Type := List Nat → Nat → List Nat

/-- Per-execution-context state of the entropy mechanism: the thread-local
callback pointer `tls_fill` (`none` = null) and the trace of request lengths
made so far in this context. -/
structure RngState where
  tls_fill : Option FillFn
  fillHist : List Nat

/-- `randombytes(out, outlen)`: if `tls_fill` is installed, the buffer
contents are exactly the callback's output for this request; otherwise the
buffer is filled with `outlen` zero bytes. Returns the buffer contents and
the successor state. -/
def randombytes (st : RngState) (outlen : Nat) : List Nat × RngState :=
  match st.tls_fill with
  | some f => (f st.fillHist outlen, ⟨st.tls_fill, st.fillHist ++ [outlen]⟩)
  | none => (List.replicate outlen 0, ⟨st.tls_fill, st.fillHist ++ [outlen]⟩)

/-- `PQCLEAN_randombytes(out, outlen)`: forwards to `randombytes`. -/
def PQCLEAN_randombytes (st : RngState) (outlen : Nat) : List Nat × RngState :=
  randombytes st outlen

/-- `tt_set_randombytes(fill_fn)`: stores the given pointer (possibly null)
into the thread-local slot, overwriting whatever was there. -/
def tt_set_randombytes (fill_fn : Option FillFn) (st : RngState) : RngState :=
  ⟨fill_fn, st.fillHist⟩

/-- An opaque routine that may call back into `randombytes` zero or more
times: either it returns a result, or it requests `n` random bytes and
continues as a function of the bytes received. -/
inductive EntropyProg (α : Type) : Type where
  | ret : α → EntropyProg α
  | getRandom : Nat → (List Nat → EntropyProg α) → EntropyProg α

/-- Run an opaque routine against the entropy state: every `getRandom n`
request is served by `randombytes`. -/
def runProg {α : Type} : EntropyProg α → RngState → α × RngState
  | .ret a, st => (a, st)
  | .getRandom n k, st =>
    let r := randombytes st n
    runProg (k r.1) r.2

/-- Instrumented run: additionally records, for each `getRandom` request, the
value of the `tls_fill` slot observed at the moment of the request. -/
def runProgTrace {α : Type} : EntropyProg α → RngState → α × RngState × List (Option FillFn)
  | .ret a, st => (a, st, [])
  | .getRandom n k, st =>
    let r := randombytes st n
    let rest := runProgTrace (k r.1) r.2
    (rest.1, rest.2.1, st.tls_fill :: rest.2.2)

/-- Result of the opaque key-generation routine: public key bytes, secret key
bytes, and the returned status. -/
structure KeypairResult where
  pk : List Nat
  sk : List Nat
  status : Int

/-- Result of the opaque signing routine: the signature buffer, the reported
actual length `siglen`, and the returned status. -/
structure SignResult where
  sig : List Nat
  siglen : Nat
  status : Int

/-- `tt_falcon512_keypair_seeded(pk, sk, fill_fn)`: installs `fill_fn` via
`tt_set_randombytes`, then runs the opaque key-generation routine (a
parameter, since PQClean is external) and returns its result unchanged. -/
def tt_falcon512_keypair_seeded (opqKeyGen : EntropyProg KeypairResult)
    (fill_fn : Option FillFn) (st : RngState) : KeypairResult × RngState :=
  runProg opqKeyGen (tt_set_randombytes fill_fn st)

/-- `tt_falcon512_sign_seeded(sig, siglen, m, mlen, sk, fill_fn)`: installs
`fill_fn` via `tt_set_randombytes`, then runs the opaque signing routine on
`(m, sk)` and returns its result unchanged. -/
def tt_falcon512_sign_seeded (opqSign : List Nat → List Nat → EntropyProg SignResult)
    (m sk : List Nat) (fill_fn : Option FillFn) (st : RngState) : SignResult × RngState :=
  runProg (opqSign m sk) (tt_set_randombytes fill_fn st)

/-- `tt_falcon512_verify(sig, siglen, m, mlen, pk)`: delegates to the opaque
verification routine and returns its status. The opaque routine takes no
entropy (per the external contract it never calls `randombytes`), and the
shim neither reads nor writes the slot. -/
def tt_falcon512_verify (opqVerify : List Nat → List Nat → List Nat → Int)
    (sig m pk : List Nat) (st : RngState) : Int × RngState :=
  (opqVerify sig m pk, st)

/-- Modelled from the spec: `SchemeError` — the opaque routine reported
non-zero status; the status is carried unchanged. The facade layer that maps
statuses to errors is described in the spec but is not among the C sources. -/
inductive SchemeError : Type where
  | schemeError : Int → SchemeError

/-- Modelled from the spec: `generateKeyPair(fill)` — installs `fill`, runs
the opaque key generation, returns the `(publicKey, secretKey)` pair on
status 0, and fails with `SchemeError` carrying the status otherwise. -/
def generateKeyPair (opqKeyGen : EntropyProg KeypairResult) (fill : FillFn)
    (st : RngState) : Except SchemeError (List Nat × List Nat) × RngState :=
  let r := tt_falcon512_keypair_seeded opqKeyGen (some fill) st
  (if r.1.status = 0 then Except.ok (r.1.pk, r.1.sk)
   else Except.error (SchemeError.schemeError r.1.status), r.2)

/-- Modelled from the spec: `sign(message, secretKey, fill)` — installs
`fill`, runs the opaque signing routine, returns the signature with its
reported actual length on status 0, and fails with `SchemeError` carrying
the status otherwise. -/
def sign (opqSign : List Nat → List Nat → EntropyProg SignResult)
    (m sk : List Nat) (fill : FillFn) (st : RngState) :
    Except SchemeError (List Nat × Nat) × RngState :=
  let r := tt_falcon512_sign_seeded opqSign m sk (some fill) st
  (if r.1.status = 0 then Except.ok (r.1.sig, r.1.siglen)
   else Except.error (SchemeError.schemeError r.1.status), r.2)

/-- Modelled from the spec: `verify(message, signature, publicKey)` — returns
whether the opaque verification routine reports success (status 0); a
mismatch is a normal `false`, not an error. -/
def verify (opqVerify : List Nat → List Nat → List Nat → Int)
    (sig m pk : List Nat) (st : RngState) : Bool × RngState :=
  let r := tt_falcon512_verify opqVerify sig m pk st
  (decide (r.1 = 0), r.2)

/-- The fill callback that always writes zero bytes, used to state the
fallback-equivalence property. -/
def zeroFill : FillFn := fun _ n => List.replicate n 0

/-- A concrete opaque key-generation program used in witnesses: requests two
random bytes and returns them as both key halves with status 0. -/
def demoKeyGen : EntropyProg KeypairResult :=
  EntropyProg.getRandom 2 (fun b => EntropyProg.ret ⟨b, b, 0⟩)

/-- A fill callback pointwise equal to `zeroFill` but syntactically distinct,
used to witness the determinism property. -/
def zeroFillPad : FillFn := fun _ n => List.replicate (n + 0) 0

/-- A fresh per-context state: empty slot, empty history. -/
def st0 : RngState := ⟨none, []⟩

lemma randombytes_tls (st : RngState) (n : Nat) :
    (randombytes st n).2.tls_fill = st.tls_fill := by
  rcases st with ⟨slot, hist⟩
  cases slot <;> rfl

lemma randombytes_none (st : RngState) (n : Nat) (h : st.tls_fill = none) :
    (randombytes st n).1 = List.replicate n 0 := by
  rcases st with ⟨slot, hist⟩
  cases slot with
  | none => rfl
  | some f => exact Option.noConfusion h

lemma runProg_tls {α : Type} (p : EntropyProg α) (st : RngState) :
    (runProg p st).2.tls_fill = st.tls_fill := by
  induction p generalizing st with
  | ret a => rfl
  | getRandom n k ih =>
    show (runProg (k (randombytes st n).1) (randombytes st n).2).2.tls_fill = _
    rw [ih, randombytes_tls]

lemma runProgTrace_run {α : Type} (p : EntropyProg α) (st : RngState) :
    (runProgTrace p st).1 = (runProg p st).1 ∧
      (runProgTrace p st).2.1 = (runProg p st).2 := by
  induction p generalizing st with
  | ret a => exact ⟨rfl, rfl⟩
  | getRandom n k ih =>
    simpa only [runProgTrace, runProg] using ih _ _

lemma runProgTrace_slots {α : Type} (f : FillFn) (p : EntropyProg α) (st : RngState)
    (hst : st.tls_fill = some f) :
    (runProgTrace p st).2.2 =
      List.replicate (runProgTrace p st).2.2.length (some f) := by
  induction p generalizing st with
  | ret a => rfl
  | getRandom n k ih =>
    have h2 : (randombytes st n).2.tls_fill = some f := by rw [randombytes_tls, hst]
    simp only [runProgTrace, List.length_cons, List.replicate_succ, hst]
    exact congrArg (List.cons (some f)) (ih _ _ h2)

lemma runProg_none_eq_zeroFill {α : Type} (p : EntropyProg α) (h : List Nat) :
    runProg p ⟨none, h⟩ =
      ((runProg p ⟨some zeroFill, h⟩).1,
        ⟨none, (runProg p ⟨some zeroFill, h⟩).2.fillHist⟩) := by
  induction p generalizing h with
  | ret a => rfl
  | getRandom n k ih =>
    show runProg (k (List.replicate n 0)) ⟨none, h ++ [n]⟩ = _
    exact ih _ _

/-- C1: `randombytes` with an installed callback writes exactly the
callback's output for the request `(buffer, length)` into the buffer, and
with no callback installed writes exactly `outlen` zero bytes — it consults
nothing but the slot. -/
theorem randombytes_dispatch (f : FillFn) (hist : List Nat) (outlen : Nat) :
    (randombytes ⟨some f, hist⟩ outlen).1 = f hist outlen
    ∧ (randombytes ⟨none, hist⟩ outlen).1 = List.replicate outlen 0
    ∧ (randombytes ⟨none, hist⟩ outlen).1.length = outlen := by
  refine ⟨rfl, rfl, ?_⟩
  simp [randombytes]

/-- C2: within one call to `tt_falcon512_keypair_seeded` or
`tt_falcon512_sign_seeded`, the slot observed at every entropy request made
by the opaque routine is the freshly installed callback (never stale, never
empty), and the shim's result is the traced run's result. -/
theorem install_happens_before_first_fill (opqKeyGen : EntropyProg KeypairResult)
    (opqSign : List Nat → List Nat → EntropyProg SignResult)
    (m sk : List Nat) (fill : FillFn) (st : RngState) :
    (runProgTrace opqKeyGen (tt_set_randombytes (some fill) st)).2.2 =
      List.replicate
        (runProgTrace opqKeyGen (tt_set_randombytes (some fill) st)).2.2.length
        (some fill)
    ∧ (runProgTrace (opqSign m sk) (tt_set_randombytes (some fill) st)).2.2 =
      List.replicate
        (runProgTrace (opqSign m sk) (tt_set_randombytes (some fill) st)).2.2.length
        (some fill)
    ∧ (tt_falcon512_keypair_seeded opqKeyGen (some fill) st).1 =
      (runProgTrace opqKeyGen (tt_set_randombytes (some fill) st)).1
    ∧ (tt_falcon512_sign_seeded opqSign m sk (some fill) st).1 =
      (runProgTrace (opqSign m sk) (tt_set_randombytes (some fill) st)).1 :=
  ⟨runProgTrace_slots fill opqKeyGen _ rfl,
   runProgTrace_slots fill (opqSign m sk) _ rfl,
   (runProgTrace_run opqKeyGen _).1.symm,
   (runProgTrace_run (opqSign m sk) _).1.symm⟩

/-- C3: `tt_set_randombytes` is total and unconditionally overwrites: it
takes an empty slot to `Installed f` and an installed slot to `Installed f`,
leaving the rest of the state unchanged, with no other transition. -/
theorem set_randombytes_overwrites (f g : FillFn) (hist : List Nat) (st : RngState) :
    tt_set_randombytes (some f) ⟨none, hist⟩ = ⟨some f, hist⟩
    ∧ tt_set_randombytes (some f) ⟨some g, hist⟩ = ⟨some f, hist⟩
    ∧ (tt_set_randombytes (some f) st).tls_fill = some f
    ∧ (tt_set_randombytes (some f) st).fillHist = st.fillHist :=
  ⟨rfl, rfl, rfl, rfl⟩

/-- C4: the shims return the opaque routine's result unchanged, and the
facade operations fail with `SchemeError` carrying the opaque status exactly
when that status is non-zero, returning the opaque output unmodified on
status 0. -/
theorem scheme_status_propagation (opqKeyGen : EntropyProg KeypairResult)
    (opqSign : List Nat → List Nat → EntropyProg SignResult)
    (m sk : List Nat) (fill : FillFn) (st : RngState) :
    (tt_falcon512_keypair_seeded opqKeyGen (some fill) st).1 =
      (runProg opqKeyGen (tt_set_randombytes (some fill) st)).1
    ∧ (tt_falcon512_sign_seeded opqSign m sk (some fill) st).1 =
      (runProg (opqSign m sk) (tt_set_randombytes (some fill) st)).1
    ∧ ((generateKeyPair opqKeyGen fill st).1 =
        Except.ok ((tt_falcon512_keypair_seeded opqKeyGen (some fill) st).1.pk,
          (tt_falcon512_keypair_seeded opqKeyGen (some fill) st).1.sk)
      ↔ (tt_falcon512_keypair_seeded opqKeyGen (some fill) st).1.status = 0)
    ∧ ((generateKeyPair opqKeyGen fill st).1 =
        Except.error (SchemeError.schemeError
          (tt_falcon512_keypair_seeded opqKeyGen (some fill) st).1.status)
      ↔ (tt_falcon512_keypair_seeded opqKeyGen (some fill) st).1.status ≠ 0)
    ∧ ((sign opqSign m sk fill st).1 =
        Except.ok ((tt_falcon512_sign_seeded opqSign m sk (some fill) st).1.sig,
          (tt_falcon512_sign_seeded opqSign m sk (some fill) st).1.siglen)
      ↔ (tt_falcon512_sign_seeded opqSign m sk (some fill) st).1.status = 0)
    ∧ ((sign opqSign m sk fill st).1 =
        Except.error (SchemeError.schemeError
          (tt_falcon512_sign_seeded opqSign m sk (some fill) st).1.status)
      ↔ (tt_falcon512_sign_seeded opqSign m sk (some fill) st).1.status ≠ 0) := by
  refine ⟨rfl, rfl, ?_, ?_, ?_, ?_⟩
  · by_cases hs : (tt_falcon512_keypair_seeded opqKeyGen (some fill) st).1.status = 0 <;>
      simp [generateKeyPair, hs]
  · by_cases hs : (tt_falcon512_keypair_seeded opqKeyGen (some fill) st).1.status = 0 <;>
      simp [generateKeyPair, hs]
  · by_cases hs : (tt_falcon512_sign_seeded opqSign m sk (some fill) st).1.status = 0 <;>
      simp [sign, hs]
  · by_cases hs : (tt_falcon512_sign_seeded opqSign m sk (some fill) st).1.status = 0 <;>
      simp [sign, hs]

/-- C5: `tt_falcon512_verify` leaves the entropy state exactly as it found
it, its result does not depend on that state, it returns exactly the opaque
routine's status, and the `verify` facade reports success as a boolean
(mismatch is `false`, never an error). -/
theorem verify_frame (opqVerify : List Nat → List Nat → List Nat → Int)
    (sig m pk : List Nat) (st st' : RngState) :
    (tt_falcon512_verify opqVerify sig m pk st).2 = st
    ∧ (tt_falcon512_verify opqVerify sig m pk st).1 = opqVerify sig m pk
    ∧ (tt_falcon512_verify opqVerify sig m pk st).1 =
      (tt_falcon512_verify opqVerify sig m pk st').1
    ∧ (verify opqVerify sig m pk st).2 = st
    ∧ ((verify opqVerify sig m pk st).1 = true ↔ opqVerify sig m pk = 0) :=
  ⟨rfl, rfl, rfl, rfl, by simp [verify, tt_falcon512_verify]⟩

/-- C6: running key generation or signing with the slot empty produces
output (and entropy-request history) identical to running it with the
always-zero callback installed. -/
theorem empty_equals_zeroFill (opqKeyGen : EntropyProg KeypairResult)
    (opqSign : List Nat → List Nat → EntropyProg SignResult)
    (m sk : List Nat) (st : RngState) :
    (tt_falcon512_keypair_seeded opqKeyGen none st).1 =
      (tt_falcon512_keypair_seeded opqKeyGen (some zeroFill) st).1
    ∧ (tt_falcon512_keypair_seeded opqKeyGen none st).2.fillHist =
      (tt_falcon512_keypair_seeded opqKeyGen (some zeroFill) st).2.fillHist
    ∧ (tt_falcon512_sign_seeded opqSign m sk none st).1 =
      (tt_falcon512_sign_seeded opqSign m sk (some zeroFill) st).1
    ∧ (tt_falcon512_sign_seeded opqSign m sk none st).2.fillHist =
      (tt_falcon512_sign_seeded opqSign m sk (some zeroFill) st).2.fillHist := by
  have hk := runProg_none_eq_zeroFill opqKeyGen st.fillHist
  have hs := runProg_none_eq_zeroFill (opqSign m sk) st.fillHist
  refine ⟨?_, ?_, ?_, ?_⟩ <;>
    simp only [tt_falcon512_keypair_seeded, tt_falcon512_sign_seeded,
      tt_set_randombytes, hk, hs]

/-- C7: two fill callbacks producing byte-for-byte identical output on every
request sequence yield identical key pairs — the shim adds no entropy of its
own. -/
theorem keypair_deterministic (f g : FillFn)
    (hfg : ∀ hist n, f hist n = g hist n)
    (opqKeyGen : EntropyProg KeypairResult) (st : RngState) :
    (tt_falcon512_keypair_seeded opqKeyGen (some f) st).1 =
      (tt_falcon512_keypair_seeded opqKeyGen (some g) st).1 := by
  have hfun : f = g := funext fun hist => funext fun n => hfg hist n
  rw [hfun]

/-- Witness for C7: `zeroFill` and `zeroFillPad` agree on every request, and
key generation with either produces the same key pair. -/
theorem keypair_deterministic_witness :
    zeroFill [] 2 = zeroFillPad [] 2
    ∧ (tt_falcon512_keypair_seeded demoKeyGen (some zeroFill) st0).1 =
      (tt_falcon512_keypair_seeded demoKeyGen (some zeroFillPad) st0).1 :=
  ⟨rfl, keypair_deterministic zeroFill zeroFillPad (fun _ _ => rfl) demoKeyGen st0⟩

/-- Thread-local storage across execution contexts: one `RngState` per
thread id, mirroring the `__thread` qualifier on `tls_fill`. -/
def TLSMap : Type := Nat → RngState

/-- `tt_falcon512_keypair_seeded` run on a given thread: it reads and writes
only that thread's slot. -/
def keypairAt (tid : Nat) (opqKeyGen : EntropyProg KeypairResult)
    (fill_fn : Option FillFn) (tls : TLSMap) : KeypairResult × TLSMap :=
  let r := tt_falcon512_keypair_seeded opqKeyGen fill_fn (tls tid)
  (r.1, fun t => if t = tid then r.2 else tls t)

/-- `tt_falcon512_sign_seeded` run on a given thread: it reads and writes
only that thread's slot. -/
def signAt (tid : Nat) (opqSign : List Nat → List Nat → EntropyProg SignResult)
    (m sk : List Nat) (fill_fn : Option FillFn) (tls : TLSMap) : SignResult × TLSMap :=
  let r := tt_falcon512_sign_seeded opqSign m sk fill_fn (tls tid)
  (r.1, fun t => if t = tid then r.2 else tls t)

/-- A concrete opaque signing program used in witnesses: requests one random
byte and returns the message with that byte appended as the signature,
status 0. -/
def demoSign : List Nat → List Nat → EntropyProg SignResult :=
  fun m _ => EntropyProg.getRandom 1
    (fun b => EntropyProg.ret ⟨m ++ b, (m ++ b).length, 0⟩)

/-- C8: per-context isolation for both entropy-consuming operations: a
keypair or sign call on thread `i` leaves thread `j`'s slot untouched, its
result is unchanged by whether the other thread's call (keypair or sign) ran
before it, and the per-thread final states after running both in either
order coincide — covering keypair/keypair, sign/sign, and mixed
keypair/sign pairs. -/
theorem context_isolation (i j : Nat) (hij : i ≠ j)
    (opqi opqj : EntropyProg KeypairResult)
    (sopqi sopqj : List Nat → List Nat → EntropyProg SignResult)
    (mi ski mj skj : List Nat) (fi fj : Option FillFn) (tls : TLSMap) :
    (keypairAt i opqi fi tls).2 j = tls j
    ∧ (keypairAt i opqi fi ((keypairAt j opqj fj tls).2)).1 = (keypairAt i opqi fi tls).1
    ∧ (keypairAt j opqj fj ((keypairAt i opqi fi tls).2)).1 = (keypairAt j opqj fj tls).1
    ∧ (keypairAt j opqj fj ((keypairAt i opqi fi tls).2)).2 i = (keypairAt i opqi fi tls).2 i
    ∧ (keypairAt j opqj fj ((keypairAt i opqi fi tls).2)).2 j = (keypairAt j opqj fj tls).2 j
    ∧ (signAt i sopqi mi ski fi tls).2 j = tls j
    ∧ (signAt i sopqi mi ski fi ((signAt j sopqj mj skj fj tls).2)).1 =
      (signAt i sopqi mi ski fi tls).1
    ∧ (signAt j sopqj mj skj fj ((signAt i sopqi mi ski fi tls).2)).1 =
      (signAt j sopqj mj skj fj tls).1
    ∧ (signAt j sopqj mj skj fj ((signAt i sopqi mi ski fi tls).2)).2 i =
      (signAt i sopqi mi ski fi tls).2 i
    ∧ (signAt j sopqj mj skj fj ((signAt i sopqi mi ski fi tls).2)).2 j =
      (signAt j sopqj mj skj fj tls).2 j
    ∧ (signAt j sopqj mj skj fj tls).2 i = tls i
    ∧ (keypairAt i opqi fi ((signAt j sopqj mj skj fj tls).2)).1 =
      (keypairAt i opqi fi tls).1
    ∧ (signAt j sopqj mj skj fj ((keypairAt i opqi fi tls).2)).1 =
      (signAt j sopqj mj skj fj tls).1
    ∧ (signAt j sopqj mj skj fj ((keypairAt i opqi fi tls).2)).2 i =
      (keypairAt i opqi fi tls).2 i
    ∧ (signAt j sopqj mj skj fj ((keypairAt i opqi fi tls).2)).2 j =
      (signAt j sopqj mj skj fj tls).2 j := by
  have hji : j ≠ i := fun h => hij h.symm
  refine ⟨?_, ?_, ?_, ?_, ?_, ?_, ?_, ?_, ?_, ?_, ?_, ?_, ?_, ?_, ?_⟩ <;>
    simp [keypairAt, signAt, hij, hji]

/-- A second concrete thread-local store for the isolation witness: both
threads start with an empty slot and empty history. -/
def tls0 : TLSMap := fun _ => ⟨none, []⟩

/-- Witness for C8: threads 0 and 1 with distinct sources (`zeroFill`
installed on thread 0, empty slot on thread 1) are isolated, for keypair
calls, sign calls, and a mixed keypair/sign pair. -/
theorem context_isolation_witness :
    (0 : Nat) ≠ 1
    ∧ ((keypairAt 0 demoKeyGen (some zeroFill) tls0).2 1 = tls0 1
      ∧ (keypairAt 0 demoKeyGen (some zeroFill)
          ((keypairAt 1 demoKeyGen none tls0).2)).1 =
        (keypairAt 0 demoKeyGen (some zeroFill) tls0).1
      ∧ (keypairAt 1 demoKeyGen none
          ((keypairAt 0 demoKeyGen (some zeroFill) tls0).2)).1 =
        (keypairAt 1 demoKeyGen none tls0).1
      ∧ (keypairAt 1 demoKeyGen none
          ((keypairAt 0 demoKeyGen (some zeroFill) tls0).2)).2 0 =
        (keypairAt 0 demoKeyGen (some zeroFill) tls0).2 0
      ∧ (keypairAt 1 demoKeyGen none
          ((keypairAt 0 demoKeyGen (some zeroFill) tls0).2)).2 1 =
        (keypairAt 1 demoKeyGen none tls0).2 1
      ∧ (signAt 0 demoSign [1] [2] (some zeroFill) tls0).2 1 = tls0 1
      ∧ (signAt 0 demoSign [1] [2] (some zeroFill)
          ((signAt 1 demoSign [3] [4] none tls0).2)).1 =
        (signAt 0 demoSign [1] [2] (some zeroFill) tls0).1
      ∧ (signAt 1 demoSign [3] [4] none
          ((signAt 0 demoSign [1] [2] (some zeroFill) tls0).2)).1 =
        (signAt 1 demoSign [3] [4] none tls0).1
      ∧ (signAt 1 demoSign [3] [4] none
          ((signAt 0 demoSign [1] [2] (some zeroFill) tls0).2)).2 0 =
        (signAt 0 demoSign [1] [2] (some zeroFill) tls0).2 0
      ∧ (signAt 1 demoSign [3] [4] none
          ((signAt 0 demoSign [1] [2] (some zeroFill) tls0).2)).2 1 =
        (signAt 1 demoSign [3] [4] none tls0).2 1
      ∧ (signAt 1 demoSign [3] [4] none tls0).2 0 = tls0 0
      ∧ (keypairAt 0 demoKeyGen (some zeroFill)
          ((signAt 1 demoSign [3] [4] none tls0).2)).1 =
        (keypairAt 0 demoKeyGen (some zeroFill) tls0).1
      ∧ (signAt 1 demoSign [3] [4] none
          ((keypairAt 0 demoKeyGen (some zeroFill) tls0).2)).1 =
        (signAt 1 demoSign [3] [4] none tls0).1
      ∧ (signAt 1 demoSign [3] [4] none
          ((keypairAt 0 demoKeyGen (some zeroFill) tls0).2)).2 0 =
        (keypairAt 0 demoKeyGen (some zeroFill) tls0).2 0
      ∧ (signAt 1 demoSign [3] [4] none
          ((keypairAt 0 demoKeyGen (some zeroFill) tls0).2)).2 1 =
        (signAt 1 demoSign [3] [4] none tls0).2 1) :=
  ⟨Nat.zero_ne_one,
   context_isolation 0 1 Nat.zero_ne_one demoKeyGen demoKeyGen demoSign demoSign
     [1] [2] [3] [4] (some zeroFill) none tls0⟩

/-- C9: `PQCLEAN_randombytes` behaves identically to `randombytes` on every
state and request length: same buffer contents, same successor state. -/
theorem pqclean_randombytes_equiv (st : RngState) (outlen : Nat) :
    PQCLEAN_randombytes st outlen = randombytes st outlen := rfl

/-- C10: installing the null pointer empties the slot for the current
context: afterwards (and after any further opaque activity) every entropy
request writes exactly zero bytes, even if a real callback was installed
before. -/
theorem null_fill_clears_slot (g : FillFn) (hist : List Nat)
    (p : EntropyProg KeypairResult) (n : Nat) :
    (tt_set_randombytes none ⟨some g, hist⟩).tls_fill = none
    ∧ (randombytes (tt_set_randombytes none ⟨some g, hist⟩) n).1 =
      List.replicate n 0
    ∧ (runProg p (tt_set_randombytes none ⟨some g, hist⟩)).2.tls_fill = none
    ∧ (randombytes (runProg p (tt_set_randombytes none ⟨some g, hist⟩)).2 n).1 =
      List.replicate n 0 := by
  have hrun : (runProg p (tt_set_randombytes none ⟨some g, hist⟩)).2.tls_fill = none :=
    runProg_tls p _
  exact ⟨rfl, rfl, hrun, randombytes_none _ n hrun⟩
